import Mathlib

/-!
Verification development for the dossierhelper repository.

The Python sources under src/dossierhelper are shallowly embedded here:
pure functions become Lean functions over `String`, `List`, `Int` and `ℚ`
(Python float values are modelled as rationals), dictionaries become
association lists preserving insertion order, and fallible code returns
`Except`.  External effects (filesystem, Spotlight metadata, Google Drive,
Finder tags, the regex engine of `re`) are parameters supplied by the
caller, mirroring the module boundaries of the source.
-/

attribute [local semireducible] Rat.add Rat.mul Rat.sub Rat.inv Rat.ofScientific

namespace Dossierhelper

/-! ## Python string primitives

Character-list implementations of the Python `str` operations used by the
sources.  All inputs in this development are ASCII, where `Char.toLower`
agrees with Python `str.lower`, and `Char.isWhitespace` covers the
whitespace the sources produce.
-/

/-- Python `s.lower()` (ASCII). -/
def pyLower (s : String) : String :=
  ⟨s.data.map Char.toLower⟩

/-- Drop leading whitespace characters. -/
def dropLeadingWs : List Char → List Char
  | [] => []
  | c :: t => if c.isWhitespace then dropLeadingWs t else c :: t

/-- Python `s.strip()` on a character list: remove whitespace at both ends. -/
def trimChars (cs : List Char) : List Char :=
  dropLeadingWs (dropLeadingWs cs.reverse).reverse

/-- Python `s[:n]` (slicing counts characters, as Lean `List.take` does). -/
def pyTake (n : Nat) (s : String) : String :=
  ⟨s.data.take n⟩

/-- Does the string starting at `cs` begin with `pat`?  Python
`token.startswith(keyword)` with `pat` the keyword. -/
def startsWithChars : List Char → List Char → Bool
  | [], _ => true
  | _ :: _, [] => false
  | p :: ps, c :: cs => p == c && startsWithChars ps cs

/-- Python substring containment `needle in hay`. -/
def containsChars : List Char → List Char → Bool
  | needle, [] => startsWithChars needle []
  | needle, c :: t => startsWithChars needle (c :: t) || containsChars needle t

/-- Accumulator for whitespace splitting; `acc` holds the reversed current
word. -/
def splitWsAux : List Char → List Char → List (List Char)
  | [], acc => if acc.isEmpty then [] else [acc.reverse]
  | c :: t, acc =>
    if c.isWhitespace then
      if acc.isEmpty then splitWsAux t [] else acc.reverse :: splitWsAux t []
    else splitWsAux t (c :: acc)

/-- Python `s.split()` with no separator: split on whitespace runs, dropping
empty pieces. -/
def splitWsChars (cs : List Char) : List (List Char) :=
  splitWsAux cs []

/-- Python `s.split()` returning strings. -/
def pySplitWs (s : String) : List String :=
  (splitWsChars s.data).map (fun cs => (⟨cs⟩ : String))

/-! ## classifier.py — legacy rule-based classification -/

/-- Enumeration `Category` of classifier.py. -/
inductive Category where
  | TEACHING
  | SERVICE
  | SCHOLARLY
  | ADVISING
  | FORM
deriving DecidableEq, Repr

/-- String value carried by each `Category` member. -/
def Category.value : Category → String
  | .TEACHING => "Teaching"
  | .SERVICE => "Service"
  | .SCHOLARLY => "Scholarly / Creative"
  | .ADVISING => "Advising"
  | .FORM => "Form"

/-- Dataclass `ClassificationResult` of classifier.py. -/
structure ClassificationResult where
  category : Category
  subcategory : String
  portfolio_destination : String
  rationale : String
deriving DecidableEq, Repr

/-- Rule table `_RULES` of classifier.py (classifier.py:30-48), verbatim. -/
def _RULES : List (List String × ClassificationResult) :=
  [ (["concert program", "ensemble"],
      ⟨.TEACHING, "Ensemble Leadership", "Primary PDF → Teaching Evidence",
        "Ensemble programs demonstrate instructional leadership."⟩),
    (["student assessment", "quiz", "evaluation"],
      ⟨.TEACHING, "Course Assessment", "Primary PDF → Teaching Evidence",
        "Student feedback shows teaching effectiveness."⟩),
    (["repertoire feedback", "pedagogy"],
      ⟨.TEACHING, "Course Material", "Primary PDF → Teaching Evidence",
        "Pedagogical material documents learning outcomes."⟩),
    (["member info", "roster"],
      ⟨.SERVICE, "Recruiting (admin evidence)", "Primary PDF → Service Evidence",
        "Recruitment management is classified as service."⟩),
    (["recruiting email", "prospect"],
      ⟨.SERVICE, "Recruiting (outreach)", "Primary PDF → Service Evidence",
        "Outreach recruiting is a service activity."⟩),
    (["vendor order", "invoice", "receipt"],
      ⟨.SERVICE, "Logistics / Ops", "Appendices",
        "Operational logistics go to appendices."⟩),
    (["leadership application", "mentorship"],
      ⟨.TEACHING, "Mentorship / Leadership Dev.", "Primary PDF → Teaching Evidence",
        "Leadership development counts as teaching."⟩),
    (["drill design", "musx", "sib"],
      ⟨.SCHOLARLY, "Creative Output", "Primary PDF → Scholarship Evidence",
        "Design files are creative scholarship."⟩),
    (["composition", "arrangement"],
      ⟨.SCHOLARLY, "Creative Output", "Primary PDF → Scholarship Evidence",
        "Compositions qualify as scholarship."⟩),
    (["literature review", "bib"],
      ⟨.SCHOLARLY, "Research Prep", "Primary PDF → Scholarship Evidence",
        "Lit reviews prepare scholarship."⟩),
    (["recording", "publicity"],
      ⟨.SCHOLARLY, "Creative Output", "Primary PDF → Scholarship Evidence",
        "Recordings promote creative work."⟩),
    (["community performance", "pep band", "game"],
      ⟨.SERVICE, "University Visibility", "Primary PDF → Service Evidence",
        "Campus performances expand visibility."⟩),
    (["clinic", "adjudicat"],
      ⟨.SERVICE, "Professional Engagement", "Primary PDF → Service Evidence",
        "Clinics and adjudication are service."⟩),
    (["advising load", "advisee"],
      ⟨.ADVISING, "Formal Advising", "Primary PDF → Advising Summary",
        "Advising reports document workload."⟩),
    (["orientation", "grad plan"],
      ⟨.ADVISING, "Advising Artifacts", "Primary PDF → Advising Evidence",
        "Advising materials support advising."⟩),
    (["annual evaluation"],
      ⟨.FORM, "Annual Eval", "SummaryTable (in Primary PDF)",
        "Annual evaluations are required forms."⟩),
    (["notice of intent", "cover sheet"],
      ⟨.FORM, "Cover Sheet", "Form (separate PDF)",
        "Cover sheets belong in the form section."⟩) ]

/-- Function `normalize` of classifier.py:51-52: `text.lower().strip()`. -/
def normalize (text : String) : String :=
  ⟨trimChars (pyLower text).data⟩

/-- Function `_tokenize` of classifier.py:55-60: normalize, replace the
separators `_` and `-` by spaces, then split on whitespace.  The source
collects tokens into a Python set; only membership is ever consumed, so a
list preserving duplicates is an equivalent model. -/
def _tokenize (text : String) : List String :=
  pySplitWs ⟨(normalize text).data.map
    (fun c => if c == '_' || c == '-' then ' ' else c)⟩

/-- Pathlib path as consumed by `classify`: only `stem` and `suffix` are
read from it. -/
structure PyPath where
  stem : String
  suffix : String
deriving DecidableEq, Repr

/-- Token pool built by `classify` (classifier.py:66-74): stem, suffix,
string metadata values (the `if metadata:` guard is a no-op on an empty
dict), and the first 500 characters of non-empty text, each tokenized. -/
def classifyTokens (path : PyPath) (metadata : List (String × String))
    (text : Option String) : List String :=
  let haystacks : List String :=
    [path.stem, path.suffix]
      ++ metadata.map (fun p => p.2)
      ++ (match text with
          | some t => if t == "" then [] else [pyTake 500 t]
          | none => [])
  haystacks.flatMap _tokenize

/-- Matching test of classifier.py:77: every keyword of the rule must be a
prefix of some token. -/
def ruleMatch (tokens : List String) (keywords : List String) : Bool :=
  keywords.all (fun keyword => tokens.any (fun token =>
    startsWithChars keyword.data token.data))

/-- First-match scan over the rule list (the `for` loop of
classifier.py:76-79). -/
def ruleScan (tokens : List String) :
    List (List String × ClassificationResult) → Option ClassificationResult
  | [] => none
  | (keywords, result) :: rest =>
    if ruleMatch tokens keywords then some result else ruleScan tokens rest

/-- Function `classify` of classifier.py:63-79. -/
def classify (path : PyPath) (metadata : List (String × String))
    (text : Option String) : Option ClassificationResult :=
  ruleScan (classifyTokens path metadata text) _RULES

/-! ## config.py — scoring configuration and calculate_score -/

/-- Dataclass `ScoringConfig` of config.py:48-55.  `per_hit_points`,
`cap_per_file` and the bonus point values are Python ints; the category
weights are floats, modelled as rationals.  The dicts keep insertion
order, modelled by association lists. -/
structure ScoringConfig where
  per_hit_points : Int := 1
  cap_per_file : Int := 25
  category_weights : List (String × ℚ) := []
  bonus_keywords : List (String × Int) := []
deriving DecidableEq, Repr

/-- Python `dict.get(key, default)` on an association list. -/
def pyDictGet {β : Type} (d : List (String × β)) (key : String)
    (default : β) : β :=
  match d.find? (fun p => p.1 == key) with
  | some p => p.2
  | none => default

/-- Method `AppConfig.calculate_score` of config.py:265-283: weighted base
points per matched category, bonus points for each bonus keyword occurring
in the lowercased `text filename` concatenation, capped at
`cap_per_file`. -/
def calculate_score (scoring : ScoringConfig) (text filename : String)
    (categories : List (String × List String)) : ℚ :=
  let full_text := pyLower (text ++ " " ++ filename)
  let base : ℚ := categories.foldl
    (fun score p =>
      score + (p.2.length : ℚ) * (scoring.per_hit_points : ℚ)
        * pyDictGet scoring.category_weights p.1 1)
    0
  let score : ℚ := scoring.bonus_keywords.foldl
    (fun score p =>
      if containsChars (pyLower p.1).data full_text.data
      then score + (p.2 : ℚ) else score)
    base
  min score (scoring.cap_per_file : ℚ)

/-! ## pipeline.py — data model -/

/-- Dataclass `EnhancedClassificationResult` of pipeline.py:33-52. -/
structure EnhancedClassificationResult where
  categories : List (String × List String)
  primary_category : String
  score : ℚ
  rationale : String
deriving DecidableEq, Repr

/-- Destination table of `portfolio_destination` (pipeline.py:45-51). -/
def category_destinations : List (String × String) :=
  [ ("Teaching", "Teaching Evidence"),
    ("Service", "Service Evidence"),
    ("Scholarship", "Scholarship Evidence"),
    ("Research", "Scholarship Evidence"),
    ("Administration", "Service Evidence") ]

/-- Property `EnhancedClassificationResult.portfolio_destination`
(pipeline.py:42-52): dictionary lookup defaulting to "Unclassified". -/
def EnhancedClassificationResult.portfolio_destination
    (r : EnhancedClassificationResult) : String :=
  pyDictGet category_destinations r.primary_category "Unclassified"

/-- Values of the legacy `AppConfig.metadata` dict (`str | list[str]`). -/
inductive PyVal where
  | str (s : String)
  | strList (l : List String)
deriving DecidableEq, Repr

/-- Google Drive file descriptor (the fields of gdrive.py `GDriveFile`
read by the pipeline). -/
structure GDriveFile where
  name : String
  modified_time : String
  drive_name : String
deriving DecidableEq, Repr

/-- Dataclass `Artifact` of pipeline.py:55-64.  `path` is a local path or
a `gdrive://` reference, both strings here. -/
structure Artifact where
  path : String
  metadata : List (String × String) := []
  classification : Option EnhancedClassificationResult := none
  text : Option String := none
  hours_spent : Option ℚ := none
  is_gdrive : Bool := false
  gdrive_file : Option GDriveFile := none
  temp_path : Option String := none
deriving DecidableEq, Repr

/-- Dataclass `ProgressEvent` of pipeline.py:67-80, restricted to the
fields the modelled code paths populate. -/
structure ProgressEvent where
  stage : String
  message : String
  bucket : Option String := none
  finder_tagged : Option Bool := none
  file_progress_percentage : Option ℚ := none
  file_progress_step : Option String := none
deriving DecidableEq, Repr

/-! ## pipeline.py — _classify_artifact -/

/-- Weighted score `len(subcategories) * weight` of one matched category
(pipeline.py:144-145), with the weight read from
`scoring.category_weights` and defaulting to 1.0. -/
def weightedScore (weights : List (String × ℚ))
    (p : String × List String) : ℚ :=
  (p.2.length : ℚ) * pyDictGet weights p.1 1

/-- Primary-category loop of `_classify_artifact` (pipeline.py:140-149):
start from ("Unclassified", 0) and replace the accumulator whenever a
strictly greater weighted score appears. -/
def selectPrimaryGo (weights : List (String × ℚ)) (acc : String × ℚ) :
    List (String × List String) → String × ℚ
  | [] => acc
  | p :: rest =>
    let ws := weightedScore weights p
    selectPrimaryGo weights (if acc.2 < ws then (p.1, ws) else acc) rest

/-- Primary category chosen by `_classify_artifact`. -/
def selectPrimary (weights : List (String × ℚ))
    (categories : List (String × List String)) : String :=
  (selectPrimaryGo weights ("Unclassified", 0) categories).1

/-- Rationale string of pipeline.py:152-157.  The Python code formats the
score with one decimal; the numeric rendering is not observed by any
theorem, so `toString` on the rational stands in for that formatting. -/
def buildRationale (categories : List (String × List String))
    (score : ℚ) : String :=
  "Pattern matches: "
    ++ String.intercalate "; "
        (categories.map (fun p => p.1 ++ ": " ++ String.intercalate ", " p.2))
    ++ ". Score: " ++ toString score

/-- Method `DossierPipeline._classify_artifact` (pipeline.py:127-164).
`classify_text_fn` stands for `self.config.classify_text`, whose
regex matching (Python `re`) is external to this embedding; the method
body receives its category:subcategories mapping.  The `metadata`
parameter is accepted and ignored exactly as in the source. -/
def _classify_artifact (scoring : ScoringConfig)
    (classify_text_fn : String → String → List (String × List String))
    (path : String) (text : String) (metadata : List (String × String)) :
    Option EnhancedClassificationResult :=
  let _ := metadata
  let categories := classify_text_fn text path
  if categories.isEmpty then none
  else
    let score := calculate_score scoring text path categories
    let primary_category := selectPrimary scoring.category_weights categories
    some ⟨categories, primary_category, score,
      buildRationale categories score⟩

/-! ## pipeline.py — _estimate_hours -/

/-- Numeric value of a digit list. -/
def digitsVal (ds : List Char) : Nat :=
  ds.foldl (fun n c => 10 * n + (c.toNat - 48)) 0

/-- Unsigned decimal parsing for Python `float(s)`: digits, optionally a
point followed by digits, at least one digit overall.  Exponent and
special forms never arise in the modelled inputs. -/
def pyFloatUnsigned (cs : List Char) : Option ℚ :=
  let intPart := cs.takeWhile Char.isDigit
  let rest := cs.drop intPart.length
  match rest with
  | [] => if intPart.isEmpty then none else some (digitsVal intPart : ℚ)
  | '.' :: frac =>
    if frac.all Char.isDigit && !(intPart.isEmpty && frac.isEmpty)
    then some ((digitsVal intPart : ℚ)
      + (digitsVal frac : ℚ) / ((10 : ℚ) ^ frac.length))
    else none
  | _ => none

/-- Python `float(s)`: strip whitespace, optional sign, decimal literal;
a failed parse is the `ValueError` path, hence `none`. -/
def pyFloat (s : String) : Option ℚ :=
  match trimChars s.data with
  | '-' :: rest => (pyFloatUnsigned rest).map (fun q => -q)
  | '+' :: rest => pyFloatUnsigned rest
  | cs => pyFloatUnsigned cs

/-- Characters after the first occurrence of `needle` inside `hay`;
`none` when `needle` does not occur.  Models the pair
`marker in text` / `text.split(marker, 1)[1]`. -/
def afterFirst : List Char → List Char → Option (List Char)
  | needle, [] => if startsWithChars needle [] then some [] else none
  | needle, c :: t =>
    if startsWithChars needle (c :: t)
    then some ((c :: t).drop needle.length)
    else afterFirst needle t

/-- Function `_estimate_hours` of pipeline.py:538-549: require a string
`author` entry in the passed metadata dict (`None` or an empty string is
falsy), then parse the first whitespace token after the literal marker
`HoursSpent:` in the extracted text; a missing marker, an empty remainder
(`IndexError`) or an unparsable token (`ValueError`) all yield `none`. -/
def _estimate_hours (artifact : Artifact)
    (metadata : List (String × PyVal)) : Option ℚ :=
  let author : Option String :=
    match pyDictGet metadata "author" (PyVal.strList []) with
    | PyVal.str s => some s
    | PyVal.strList _ => none
  match author with
  | none => none
  | some s =>
    if s == "" then none
    else
      let text := artifact.text.getD ""
      match afterFirst "HoursSpent:".data text.data with
      | none => none
      | some rest =>
        match splitWsChars rest with
        | [] => none
        | tok :: _ => pyFloat ⟨tok⟩

/-! ## pipeline.py — pass two

The per-document body of `pass_two_deep_analysis` (pipeline.py:299-419)
calls out to external facilities — the Google Drive download, Spotlight
metadata, the per-extension text extractors and the Finder tag
read/write — each of which may raise.  They enter the embedding as
`Except`-valued parameters collected in `Pass2Ops`; `processOne` embeds
the control flow of the `try` body and its `except` handler.  The many
intermediate `report_file_progress` events are not modelled; the
per-document completion event and the error event of the handler are.
-/

/-- External operations invoked by the pass-two body. -/
structure Pass2Ops where
  download_file_content : GDriveFile → Except String (Option String)
  gather_metadata : String → Except String (List (String × String))
  extract_text : String → Except String String
  classify_text_fn : String → String → List (String × List String)
  write_finder_tags : String → List String → Except String Unit
  read_finder_tags : String → Except String (List String)

/-- Configuration slice read by pass two. -/
structure PipelineConfig where
  scoring : ScoringConfig := {}
  macos_enable_finder_tags : Bool := true
  macos_tag_colors : List (String × String) := []
  metadata : List (String × PyVal) := []

/-- Function `_get_display_name` (pipeline.py:552-559), with both path
flavours already strings. -/
def _get_display_name (a : Artifact) : String :=
  if a.is_gdrive then
    match a.gdrive_file with
    | some f => f.name
    | none => a.path
  else a.path

/-- Error progress event emitted by the `except` handler
(pipeline.py:409-419): zero percentage, step "Error", message holding the
first 50 characters of the exception text. -/
def errorEvent (a : Artifact) (err : String) : ProgressEvent :=
  { stage := "pass2",
    message := "Error processing " ++ _get_display_name a ++ ": "
      ++ pyTake 50 err,
    file_progress_percentage := some 0,
    file_progress_step := some "Error" }

/-- Completion progress event of pipeline.py:382-398 for one document. -/
def completedEvent (a : Artifact) (bucket : String)
    (finder_tagged : Option Bool) : ProgressEvent :=
  { stage := "pass2",
    message := "Completed " ++ _get_display_name a,
    bucket := some bucket,
    finder_tagged := finder_tagged,
    file_progress_percentage := some 100,
    file_progress_step := some "Complete" }

/-- Function `_finder_tags_for_enhanced` (pipeline.py:519-531): primary
category plus the subcategories recorded under it.  The `tag_colors`
argument is accepted and unused, as in the source. -/
def _finder_tags_for_enhanced (result : EnhancedClassificationResult)
    (tag_colors : List (String × String)) : List String :=
  let _ := tag_colors
  result.primary_category ::
    (match result.categories.find?
        (fun p => p.1 == result.primary_category) with
      | some p => p.2
      | none => [])

/-- Step 1 of the body (pipeline.py:300-329): resolve the file path.
For a Google Drive artifact with a descriptor, download the content;
falsy content (`None` or empty) leads to `continue`, truthy content to a
temporary local copy (`ok (some (path, true))`; the OS-chosen temp name
is modelled by a deterministic tag, only creation and deletion being
observed).  All other artifacts use their own path with no temp copy. -/
def loadFilePath (ops : Pass2Ops) (a : Artifact) :
    Except String (Option (String × Bool)) :=
  if a.is_gdrive then
    match a.gdrive_file with
    | some f =>
      match ops.download_file_content f with
      | .error e => .error e
      | .ok (some content) =>
        if content == "" then .ok none
        else .ok (some ("tmpfile_" ++ f.name, true))
      | .ok none => .ok none
    | none => .ok (some (a.path, false))
  else .ok (some (a.path, false))

/-- Step 6 of the body (pipeline.py:359-369): write Finder tags when a
classification exists, tagging is requested and enabled, and the artifact
is local; the returned flag is `finder_tagged`. -/
def tagStep (ops : Pass2Ops) (config : PipelineConfig) (apply_tags : Bool)
    (a : Artifact) (file_path : String)
    (classification : Option EnhancedClassificationResult) :
    Except String Bool :=
  match classification with
  | some c =>
    if apply_tags && config.macos_enable_finder_tags && !a.is_gdrive then
      let desired := _finder_tags_for_enhanced c config.macos_tag_colors
      match ops.write_finder_tags file_path desired with
      | .error e => .error e
      | .ok _ =>
        match ops.read_finder_tags file_path with
        | .error e => .error e
        | .ok updated => .ok (desired.all (fun t => updated.contains t))
    else .ok false
  | none => .ok false

/-- Outcome of the body for one artifact.  `tempCreated` records whether
a temporary local copy was made, `tempDeleted` whether the cleanup of
pipeline.py:400-405 ran; the `except` handler performs no cleanup, so
failures always carry `tempDeleted = false`. -/
inductive Pass2Outcome where
  | success (enriched : Artifact) (e : ProgressEvent)
      (tempCreated tempDeleted : Bool)
  | skipped
  | failure (e : ProgressEvent) (tempCreated tempDeleted : Bool)
deriving DecidableEq, Repr

/-- Per-document body of `pass_two_deep_analysis` (pipeline.py:299-419):
load or download, gather metadata, extract text, classify, estimate
hours, write tags, then emit the completion event and delete the temp
copy; any raising step transfers to the `except` handler, which emits the
error event and performs no cleanup. -/
def processOne (ops : Pass2Ops) (config : PipelineConfig)
    (apply_tags : Bool) (a : Artifact) : Pass2Outcome :=
  match loadFilePath ops a with
  | .error e => .failure (errorEvent a e) false false
  | .ok none => .skipped
  | .ok (some (file_path, tempCreated)) =>
    match ops.gather_metadata file_path with
    | .error e => .failure (errorEvent a e) tempCreated false
    | .ok meta =>
      match ops.extract_text file_path with
      | .error e => .failure (errorEvent a e) tempCreated false
      | .ok txt =>
        let a1 : Artifact :=
          { a with
            metadata := meta
            text := some txt
            temp_path := if tempCreated then some file_path
              else a.temp_path }
        let classification :=
          _classify_artifact config.scoring ops.classify_text_fn
            file_path txt meta
        let a2 := { a1 with classification := classification }
        let a3 :=
          { a2 with hours_spent := _estimate_hours a2 config.metadata }
        let bucket :=
          match classification with
          | some c => c.primary_category
          | none => "Unclassified"
        match tagStep ops config apply_tags a file_path classification with
        | .error e => .failure (errorEvent a e) tempCreated false
        | .ok finder_tagged =>
          .success a3
            (completedEvent a3 bucket
              (if apply_tags then some finder_tagged else none))
            tempCreated tempCreated

/-- Loop of `pass_two_deep_analysis` (pipeline.py:283-421): successes are
appended to `enriched` with their completion event, a falsy download
leads to `continue` with no event, and an exception records the error
event and moves on to the next artifact. -/
def pass_two_deep_analysis (ops : Pass2Ops) (config : PipelineConfig)
    (apply_tags : Bool) : List Artifact → List Artifact × List ProgressEvent
  | [] => ([], [])
  | a :: rest =>
    match processOne ops config apply_tags a with
    | .success a2 e _ _ =>
      let t := pass_two_deep_analysis ops config apply_tags rest
      (a2 :: t.1, e :: t.2)
    | .skipped => pass_two_deep_analysis ops config apply_tags rest
    | .failure e _ _ =>
      let t := pass_two_deep_analysis ops config apply_tags rest
      (t.1, e :: t.2)

/-- Whether the outcome took the success exit path. -/
def outcomeIsSuccess : Pass2Outcome → Bool
  | .success _ _ _ _ => true
  | _ => false

/-- Enriched artifact of a success outcome. -/
def outcomeArtifact : Pass2Outcome → Option Artifact
  | .success a _ _ _ => some a
  | _ => none

/-- Whether a temporary local copy was created. -/
def outcomeTempCreated : Pass2Outcome → Bool
  | .success _ _ c _ => c
  | .skipped => false
  | .failure _ c _ => c

/-- Whether the temporary local copy was deleted. -/
def outcomeTempDeleted : Pass2Outcome → Bool
  | .success _ _ _ d => d
  | .skipped => false
  | .failure _ _ d => d

/-! ## pipeline.py — pass three (report rows) -/

/-- One CSV row of `pass_three_report` (pipeline.py:436-475).  The score
cell is the numeric value the source formats with two decimals; the hours
cell reflects Python `artifact.hours_spent or ""`, which blanks both
`None` and `0.0`. -/
structure ReportRow where
  path : String
  primary_category : String
  all_categories : String
  subcategories : String
  destination : String
  score : ℚ
  rationale : String
  hours_spent : Option ℚ
deriving DecidableEq, Repr

/-- Hours cell: `artifact.hours_spent or ""`. -/
def hoursCell (h : Option ℚ) : Option ℚ :=
  match h with
  | some v => if v == 0 then none else some v
  | none => none

/-- Row written for one artifact (pipeline.py:441-475): classified
artifacts carry their classification fields, unclassified ones the
explicit "Unclassified" row with score 0. -/
def rowForArtifact (a : Artifact) : ReportRow :=
  match a.classification with
  | some classification =>
    { path := a.path
      primary_category := classification.primary_category
      all_categories :=
        String.intercalate ", " (classification.categories.map (fun p => p.1))
      subcategories :=
        String.intercalate "; "
          (classification.categories.map
            (fun p => p.1 ++ ": " ++ String.intercalate ", " p.2))
      destination := classification.portfolio_destination
      score := classification.score
      rationale := classification.rationale
      hours_spent := hoursCell a.hours_spent }
  | none =>
    { path := a.path
      primary_category := "Unclassified"
      all_categories := ""
      subcategories := ""
      destination := ""
      score := 0
      rationale := "No patterns matched"
      hours_spent := hoursCell a.hours_spent }

/-- Rows of the report of `pass_three_report` (pipeline.py:423-483): one
per received artifact, in order. -/
def pass_three_rows (artifacts : List Artifact) : List ReportRow :=
  artifacts.map rowForArtifact

/-! ## classifier.py filter_by_year and the pass-one year filter -/

/-- Python exceptions distinguished by the year-filter paths. -/
inductive PyError where
  | typeError (msg : String)
  | valueError (msg : String)
deriving DecidableEq, Repr

/-- Python `int(s)`: strip whitespace, optional sign, decimal digits;
anything else raises `ValueError`. -/
def pyInt (s : String) : Except PyError Int :=
  let parse : List Char → Except PyError Int := fun ds =>
    if !ds.isEmpty && ds.all Char.isDigit
    then .ok (digitsVal ds : Int)
    else .error (.valueError "invalid literal for int() with base 10")
  match trimChars s.data with
  | '-' :: ds => (parse ds).map (fun v => -v)
  | '+' :: ds => parse ds
  | ds => parse ds

/-- Python `a or b` over optional strings, where `None` and the empty
string are falsy. -/
def pyOrStr (a b : Option String) : Option String :=
  match a with
  | some v => if v == "" then b else some v
  | none => b

/-- Python `dict.get(key)` with no default. -/
def pyDictGet? {β : Type} (d : List (String × β)) (key : String) :
    Option β :=
  match d.find? (fun p => p.1 == key) with
  | some p => some p.2
  | none => none

/-- Function `filter_by_year` of classifier.py:82-104, as its signature
defines it: one optional `year`, a metadata lookup, and — standing for
the filesystem `stat` call and the dateutil parser — the oracles
`stat_ctime_year` and `parse_date_year` (a parse failure is the caught
`ValueError`/`TypeError`, skipping the path). -/
def filter_by_year (paths : List String) (year : Option Int)
    (metadata_lookup : String → List (String × String))
    (stat_ctime_year : String → Int)
    (parse_date_year : String → Option Int) : List String :=
  match year with
  | none => paths
  | some y =>
    paths.filterMap (fun path =>
      let info := metadata_lookup path
      let date_str := pyOrStr (pyDictGet? info "kMDItemContentCreationDate")
        (pyDictGet? info "creation_date")
      match date_str with
      | none => if stat_ctime_year path == y then some path else none
      | some ds =>
        if ds == "" then
          if stat_ctime_year path == y then some path else none
        else
          match parse_date_year ds with
          | none => none
          | some py => if py == y then some path else none)

/-- Year-filter loop body of `pass_one_surface_scan` for one artifact
list (pipeline.py:240-255).  For a local artifact the source calls
`classifier.filter_by_year([artifact.path], years=year_set, ...)`
(pipeline.py:244-248); `filter_by_year` declares the keyword-only
parameter `year`, not `years` (classifier.py:82), so in Python this call
raises `TypeError` before the filter body runs, and the embedding returns
that error.  A Google Drive artifact keeps the source behaviour: parse
the leading four characters of its modification time and retain the
artifact when that year is in the requested set. -/
def passOneYearGo (ys : List Int) : List Artifact →
    Except PyError (List Artifact)
  | [] => .ok []
  | a :: rest =>
    if !a.is_gdrive then
      .error (.typeError
        "filter_by_year() got an unexpected keyword argument years")
    else
      match a.gdrive_file with
      | none => passOneYearGo ys rest
      | some f =>
        match pyInt (pyTake 4 f.modified_time) with
        | .error e => .error e
        | .ok modified_year =>
          if ys.contains modified_year then
            (passOneYearGo ys rest).map (fun l => a :: l)
          else passOneYearGo ys rest

/-- Year-filter step of `pass_one_surface_scan` (pipeline.py:237-256):
with no requested years (`None` or an empty collection, both falsy) the
artifact list passes through unfiltered; otherwise the per-artifact loop
runs. -/
def pass_one_year_filter (years : Option (List Int))
    (artifacts : List Artifact) : Except PyError (List Artifact) :=
  match years with
  | none => .ok artifacts
  | some ys =>
    if ys.isEmpty then .ok artifacts
    else passOneYearGo ys artifacts

/-! ## Specification-side measure for primary-category selection -/

/-- Maximum of `weightedScore` over a category mapping, floored at `s0`
(the selection loop starts its running maximum at 0). -/
def maxWeighted (weights : List (String × ℚ)) (s0 : ℚ)
    (cats : List (String × List String)) : ℚ :=
  cats.foldl (fun m p => max m (weightedScore weights p)) s0

/-! ## Concrete fixtures for evaluation -/

/-- Scoring configuration with a negative bonus keyword value. -/
def scoringNegBonus : ScoringConfig :=
  { bonus_keywords := [("x", -100)] }

/-- Nonnegative scoring configuration. -/
def scoringTeaching : ScoringConfig :=
  { category_weights := [("Teaching", 2)], bonus_keywords := [("award", 5)] }

/-- Artifact that reached pass three with no matched rule. -/
def mysteryDoc : Artifact := { path := "mystery.bin" }

/-- Category mapping producing a single zero-weight match. -/
def fnSingleX : String → String → List (String × List String) :=
  fun _ _ => [("X", ["a"])]

/-- Scoring configuration giving category X the weight 0. -/
def scoringZeroWeight : ScoringConfig := { category_weights := [("X", 0)] }

/-- Mapping with Teaching matching one subcategory and Service three. -/
def fnTeachingService : String → String → List (String × List String) :=
  fun _ _ =>
    [("Teaching", ["Syllabi"]),
     ("Service", ["Committee", "Recruiting", "Outreach"])]

/-- Weights 2.0 for Teaching and 1.0 for Service. -/
def scoringTS : ScoringConfig :=
  { category_weights := [("Teaching", 2), ("Service", 1)] }

/-- Local candidates whose creation years are 2021, 2022 and 2023. -/
def loc2021 : Artifact := { path := "artifact_2021.pdf" }

/-- Local candidate created in 2022. -/
def loc2022 : Artifact := { path := "artifact_2022.pdf" }

/-- Local candidate created in 2023. -/
def loc2023 : Artifact := { path := "artifact_2023.pdf" }

/-- Metadata lookup reporting a creation date for each candidate. -/
def yearLookup : String → List (String × String) := fun p =>
  if p == "artifact_2021.pdf" then [("creation_date", "2021-06-15")]
  else if p == "artifact_2022.pdf" then [("creation_date", "2022-06-15")]
  else if p == "artifact_2023.pdf" then [("creation_date", "2023-06-15")]
  else []

/-- Date-parse oracle reading the leading four-digit year, the behaviour
dateutil exhibits on the ISO dates above. -/
def leadingYear : String → Option Int := fun ds =>
  match pyInt (pyTake 4 ds) with
  | .ok y => some y
  | .error _ => none

/-- Filesystem creation-year oracle (unused by the dated candidates). -/
def statYearZero : String → Int := fun _ => 0

/-- Empty pipeline configuration (all defaults). -/
def cfgPlain : PipelineConfig := {}

/-- Operations whose metadata read raises. -/
def opsFailMeta : Pass2Ops :=
  { download_file_content := fun _ => .ok none
    gather_metadata := fun _ => .error "metadata boom"
    extract_text := fun _ => .ok ""
    classify_text_fn := fun _ _ => []
    write_finder_tags := fun _ _ => .ok ()
    read_finder_tags := fun _ => .ok [] }

/-- Local document whose processing raises. -/
def badDoc : Artifact := { path := "bad.pdf" }

/-- Local document processed after the failing one. -/
def goodDoc : Artifact := { path := "good.pdf" }

/-- Google Drive file descriptor. -/
def gdFile : GDriveFile :=
  { name := "score.pdf", modified_time := "2022-03-01T00:00:00Z",
    drive_name := "personal" }

/-- Remote document whose content downloads successfully. -/
def gdriveDoc : Artifact :=
  { path := "gdrive://personal/score.pdf", is_gdrive := true,
    gdrive_file := some gdFile }

/-- Operations where the download succeeds and the metadata read then
raises, after the temporary copy exists. -/
def opsTempLeak : Pass2Ops :=
  { download_file_content := fun _ => .ok (some "PDFDATA")
    gather_metadata := fun _ => .error "mdls crashed"
    extract_text := fun _ => .ok ""
    classify_text_fn := fun _ _ => []
    write_finder_tags := fun _ _ => .ok ()
    read_finder_tags := fun _ => .ok [] }

/-- Operations where every step succeeds. -/
def opsTempOk : Pass2Ops :=
  { download_file_content := fun _ => .ok (some "PDFDATA")
    gather_metadata := fun _ => .ok []
    extract_text := fun _ => .ok "hello"
    classify_text_fn := fun _ _ => []
    write_finder_tags := fun _ _ => .ok ()
    read_finder_tags := fun _ => .ok [] }

/-- Configuration whose legacy metadata dict names an author. -/
def cfgAuthor : PipelineConfig :=
  { metadata := [("author", PyVal.str "Alexandra")] }

/-- Operations returning an empty per-document metadata snapshot and text
carrying an hours marker. -/
def opsHours : Pass2Ops :=
  { download_file_content := fun _ => .ok none
    gather_metadata := fun _ => .ok []
    extract_text := fun _ => .ok "HoursSpent: 5 total"
    classify_text_fn := fun _ _ => []
    write_finder_tags := fun _ _ => .ok ()
    read_finder_tags := fun _ => .ok [] }

/-- Local document with no author-like snapshot field. -/
def docNoAuthorSnapshot : Artifact := { path := "notes.txt" }

/-- Artifact text carrying the hours marker, for direct estimation. -/
def docHours : Artifact :=
  { path := "n.txt", text := some "HoursSpent: 5 total" }

/-- Metadata dict carrying a string author entry. -/
def mdAuthor : List (String × PyVal) := [("author", PyVal.str "Alexandra")]

/-- Classification whose primary category is the configured, but not
hard-coded, category Advising. -/
def rAdvising : EnhancedClassificationResult :=
  { categories := [("Advising", ["Formal Advising"])],
    primary_category := "Advising", score := 3,
    rationale := "Pattern matches: Advising: Formal Advising. Score: 3" }

/-- Classified artifact carrying the Advising classification. -/
def aAdvising : Artifact :=
  { path := "advising_load.pdf", classification := some rAdvising }

/-! ## Scoring bounds (C1) -/

/-- Weight lookup stays nonnegative when every configured weight is. -/
theorem pyDictGet_weight_nonneg (w : List (String × ℚ)) (k : String)
    (hw : ∀ p ∈ w, 0 ≤ p.2) : 0 ≤ pyDictGet w k 1 := by
  unfold pyDictGet
  cases hf : w.find? (fun p => p.1 == k) with
  | none => norm_num
  | some p => exact hw p (List.mem_of_find?_eq_some hf)

/-- Base-points fold of `calculate_score` preserves nonnegativity. -/
theorem base_foldl_nonneg (php : Int) (w : List (String × ℚ))
    (hper : 0 ≤ php) (hw : ∀ p ∈ w, 0 ≤ p.2) :
    ∀ (cats : List (String × List String)) (init : ℚ), 0 ≤ init →
      0 ≤ cats.foldl
        (fun score p =>
          score + (p.2.length : ℚ) * (php : ℚ) * pyDictGet w p.1 1)
        init := by
  intro cats
  induction cats with
  | nil => intro init h; simpa using h
  | cons c rest ih =>
    intro init h
    rw [List.foldl_cons]
    apply ih
    have h1 : (0:ℚ) ≤ (c.2.length : ℚ) := Nat.cast_nonneg _
    have h2 : (0:ℚ) ≤ (php : ℚ) := by exact_mod_cast hper
    have h3 : 0 ≤ pyDictGet w c.1 1 := pyDictGet_weight_nonneg w c.1 hw
    exact add_nonneg h (mul_nonneg (mul_nonneg h1 h2) h3)

/-- Bonus-points fold of `calculate_score` preserves nonnegativity when
every bonus value is nonnegative. -/
theorem bonus_foldl_nonneg (ft : String) :
    ∀ (bonus : List (String × Int)), (∀ p ∈ bonus, 0 ≤ p.2) →
      ∀ init : ℚ, 0 ≤ init →
        0 ≤ bonus.foldl
          (fun score p =>
            if containsChars (pyLower p.1).data ft.data
            then score + (p.2 : ℚ) else score)
          init := by
  intro bonus
  induction bonus with
  | nil => intro _ init h; simpa using h
  | cons c rest ih =>
    intro hb init h
    rw [List.foldl_cons]
    apply ih (fun p hp => hb p (List.mem_cons_of_mem _ hp))
    by_cases hc : containsChars (pyLower c.1).data ft.data = true
    · have hcv : (0:ℚ) ≤ (c.2 : ℚ) := by
        exact_mod_cast hb c (List.mem_cons_self _ _)
      simp only [hc, if_true]
      exact add_nonneg h hcv
    · simp only [hc, if_false]
      exact h

/-- Claim C1, amended.  For a scoring configuration whose per-hit points,
category weights, bonus values and cap are all nonnegative, the score of
`calculate_score` lies in the interval from 0 to `cap_per_file`.  (The
claim as stated, quantified over every scoring configuration, fails:
negative configured values drive the score below 0, see
`calculate_score_neg_bonus_below_zero`.) -/
theorem calculate_score_bounds (scoring : ScoringConfig)
    (text filename : String) (categories : List (String × List String))
    (hper : 0 ≤ scoring.per_hit_points)
    (hw : ∀ p ∈ scoring.category_weights, 0 ≤ p.2)
    (hb : ∀ p ∈ scoring.bonus_keywords, 0 ≤ p.2)
    (hcap : 0 ≤ scoring.cap_per_file) :
    0 ≤ calculate_score scoring text filename categories
    ∧ calculate_score scoring text filename categories
      ≤ (scoring.cap_per_file : ℚ) := by
  have hbase := base_foldl_nonneg scoring.per_hit_points
    scoring.category_weights hper hw categories 0 le_rfl
  have hscore := bonus_foldl_nonneg (pyLower (text ++ " " ++ filename))
    scoring.bonus_keywords hb _ hbase
  have hcap' : (0:ℚ) ≤ (scoring.cap_per_file : ℚ) := by exact_mod_cast hcap
  constructor
  · simp only [calculate_score]
    exact le_min hscore hcap'
  · simp only [calculate_score]
    exact min_le_right _ _

/-- Witness for C1 at a concrete nonnegative configuration. -/
theorem calculate_score_bounds_witness :
    0 ≤ calculate_score scoringTeaching "award winning syllabus"
        "syllabus_teaching.pdf" [("Teaching", ["Syllabi"])]
    ∧ calculate_score scoringTeaching "award winning syllabus"
        "syllabus_teaching.pdf" [("Teaching", ["Syllabi"])]
      ≤ (scoringTeaching.cap_per_file : ℚ) :=
  calculate_score_bounds scoringTeaching "award winning syllabus"
    "syllabus_teaching.pdf" [("Teaching", ["Syllabi"])]
    (by decide) (by decide) (by decide) (by decide)

/-- Counterexample for C1 as stated: a configured negative bonus value
makes the computed score negative, leaving the interval from 0 to
`cap_per_file`. -/
theorem calculate_score_neg_bonus_below_zero :
    calculate_score scoringNegBonus "x" "" [] < 0 := by decide

/-! ## Report completeness (C2) -/

/-- Claim C2.  The report has exactly one row per received artifact, and
an artifact with no classification yields a row with the explicit primary
category "Unclassified" and score 0. -/
theorem pass_three_report_complete (arts : List Artifact) :
    (pass_three_rows arts).length = arts.length
    ∧ ∀ (i : Nat) (a : Artifact), arts[i]? = some a →
        a.classification = none →
        ∃ row, (pass_three_rows arts)[i]? = some row
          ∧ row.primary_category = "Unclassified" ∧ row.score = 0 := by
  constructor
  · simp [pass_three_rows]
  · intro i a hi hc
    refine ⟨rowForArtifact a, ?_, ?_, ?_⟩
    · simp [pass_three_rows, List.getElem?_map, hi]
    · simp [rowForArtifact, hc]
    · simp [rowForArtifact, hc]

/-- Witness for C2: a single unclassified artifact produces a single row
with primary category "Unclassified" and score 0. -/
theorem pass_three_report_complete_witness :
    (pass_three_rows [mysteryDoc]).length = [mysteryDoc].length
    ∧ ∃ row, (pass_three_rows [mysteryDoc])[0]? = some row
        ∧ row.primary_category = "Unclassified" ∧ row.score = 0 :=
  ⟨(pass_three_report_complete [mysteryDoc]).1,
    (pass_three_report_complete [mysteryDoc]).2 0 mysteryDoc rfl rfl⟩

/-! ## Legacy AND-rule semantics (C3, C4) -/

/-- Rule-scan soundness: a returned result comes from a rule all of whose
keywords prefix-match some token. -/
theorem ruleScan_some (tokens : List String) :
    ∀ (rules : List (List String × ClassificationResult))
      (r : ClassificationResult),
      ruleScan tokens rules = some r →
      ∃ p ∈ rules, p.2 = r ∧ ruleMatch tokens p.1 = true := by
  intro rules
  induction rules with
  | nil => intro r h; simp [ruleScan] at h
  | cons q rest ih =>
    intro r h
    obtain ⟨kw, res⟩ := q
    by_cases hm : ruleMatch tokens kw = true
    · simp only [ruleScan, hm, if_true] at h
      exact ⟨(kw, res), List.mem_cons_self _ _, Option.some.inj h, hm⟩
    · simp only [ruleScan, hm, if_false] at h
      obtain ⟨p, hp, hpr, hpm⟩ := ih r h
      exact ⟨p, List.mem_cons_of_mem _ hp, hpr, hpm⟩

/-- Claim C3.  First, whenever `classify` returns a result, it belongs to
a rule in `_RULES` every one of whose keywords is a prefix of some token
derived from the stem, suffix, metadata values and the first 500 text
characters.  Second, a two-keyword rule is not matched by a token pool in
which no token starts with the second keyword. -/
theorem classify_requires_all_keywords :
    (∀ (path : PyPath) (metadata : List (String × String))
        (text : Option String) (r : ClassificationResult),
      classify path metadata text = some r →
        ∃ p ∈ _RULES, p.2 = r ∧
          ruleMatch (classifyTokens path metadata text) p.1 = true)
    ∧ (∀ (tokens : List String) (A B : String),
        tokens.any (fun token => startsWithChars B.data token.data) = false →
        ruleMatch tokens [A, B] = false) := by
  constructor
  · intro path metadata text r h
    exact ruleScan_some (classifyTokens path metadata text) _RULES r h
  · intro tokens A B hB
    simp [ruleMatch, hB]

/-- Witness for C3: a matching run on a document whose tokens satisfy
both keywords of the composition rule, and a two-keyword rule refused
when only the first keyword has a matching token. -/
theorem classify_requires_all_keywords_witness :
    (∃ p ∈ _RULES,
        p.2 = (⟨.SCHOLARLY, "Creative Output",
          "Primary PDF → Scholarship Evidence",
          "Compositions qualify as scholarship."⟩ : ClassificationResult)
        ∧ ruleMatch
            (classifyTokens ⟨"composition_arrangement", ".pdf"⟩ [] none)
            p.1 = true)
    ∧ ruleMatch ["alpha"] ["al", "be"] = false :=
  ⟨classify_requires_all_keywords.1 ⟨"composition_arrangement", ".pdf"⟩ []
      none ⟨.SCHOLARLY, "Creative Output",
        "Primary PDF → Scholarship Evidence",
        "Compositions qualify as scholarship."⟩ (by decide),
    classify_requires_all_keywords.2 ["alpha"] "al" "be" (by decide)⟩

/-- Claim C4.  The document concert_program_fall.pdf with no text and no
metadata is classified by no rule at all: whitespace-splitting
tokenization means no token can start with the two-word keyword
"concert program", so the first rule — and every other — fails, and
`classify` returns `none` rather than the Teaching result the rule table
pairs with that keyword. -/
theorem classify_concert_program_unmatched :
    classify ⟨"concert_program_fall", ".pdf"⟩ [] none = none
    ∧ _RULES.head? = some (["concert program", "ensemble"],
        ⟨.TEACHING, "Ensemble Leadership", "Primary PDF → Teaching Evidence",
          "Ensemble programs demonstrate instructional leadership."⟩) :=
  ⟨by decide, by decide⟩

/-! ## Primary-category selection (C5) -/

/-- Unfolding step for the running maximum. -/
theorem maxWeighted_cons (w : List (String × ℚ)) (s0 : ℚ)
    (c : String × List String) (rest : List (String × List String)) :
    maxWeighted w s0 (c :: rest)
      = maxWeighted w (max s0 (weightedScore w c)) rest := rfl

/-- Running maximum dominates its floor. -/
theorem le_maxWeighted (w : List (String × ℚ)) :
    ∀ (cats : List (String × List String)) (s0 : ℚ),
      s0 ≤ maxWeighted w s0 cats := by
  intro cats
  induction cats with
  | nil => intro s0; exact le_refl s0
  | cons c rest ih =>
    intro s0
    rw [maxWeighted_cons]
    exact le_trans (le_max_left _ _) (ih _)

/-- Running maximum dominates every member score. -/
theorem mem_le_maxWeighted (w : List (String × ℚ)) :
    ∀ (cats : List (String × List String)) (s0 : ℚ)
      (p : String × List String), p ∈ cats →
      weightedScore w p ≤ maxWeighted w s0 cats := by
  intro cats
  induction cats with
  | nil => intro s0 p hp; cases hp
  | cons c rest ih =>
    intro s0 p hp
    rw [maxWeighted_cons]
    rcases List.mem_cons.mp hp with h | h
    · subst h
      exact le_trans (le_max_right _ _) (le_maxWeighted w rest _)
    · exact ih _ p h

/-- When nothing beats the floor, the running maximum is the floor. -/
theorem maxWeighted_of_all_le (w : List (String × ℚ)) :
    ∀ (cats : List (String × List String)) (s0 : ℚ),
      (∀ p ∈ cats, weightedScore w p ≤ s0) →
      maxWeighted w s0 cats = s0 := by
  intro cats
  induction cats with
  | nil => intro s0 _; rfl
  | cons c rest ih =>
    intro s0 h
    rw [maxWeighted_cons, max_eq_left (h c (List.mem_cons_self _ _))]
    exact ih s0 (fun p hp => h p (List.mem_cons_of_mem _ hp))

/-- When nothing beats the accumulator, the loop keeps it. -/
theorem selectPrimaryGo_of_all_le (w : List (String × ℚ)) :
    ∀ (cats : List (String × List String)) (n0 : String) (s0 : ℚ),
      (∀ p ∈ cats, weightedScore w p ≤ s0) →
      selectPrimaryGo w (n0, s0) cats = (n0, s0) := by
  intro cats
  induction cats with
  | nil => intro n0 s0 _; rfl
  | cons c rest ih =>
    intro n0 s0 h
    have hc : ¬ s0 < weightedScore w c :=
      not_lt.mpr (h c (List.mem_cons_self _ _))
    simp only [selectPrimaryGo, if_neg hc]
    exact ih n0 s0 (fun p hp => h p (List.mem_cons_of_mem _ hp))

/-- Strict growth of the running maximum exhibits a member above the
floor. -/
theorem exists_lt_of_lt_maxWeighted (w : List (String × ℚ)) :
    ∀ (cats : List (String × List String)) (s0 : ℚ),
      s0 < maxWeighted w s0 cats →
      ∃ p ∈ cats, s0 < weightedScore w p := by
  intro cats
  induction cats with
  | nil => intro s0 h; exact absurd h (lt_irrefl s0)
  | cons c rest ih =>
    intro s0 h
    by_cases hc : s0 < weightedScore w c
    · exact ⟨c, List.mem_cons_self _ _, hc⟩
    · rw [maxWeighted_cons, max_eq_left (not_lt.mp hc)] at h
      obtain ⟨p, hp, hlt⟩ := ih s0 h
      exact ⟨p, List.mem_cons_of_mem _ hp, hlt⟩

/-- Selection loop of `_classify_artifact`: when some member exceeds the
starting accumulator, the loop returns the first member attaining the
running maximum — the strict comparison resolves ties in favour of the
earlier entry. -/
theorem selectPrimaryGo_argmax (w : List (String × ℚ)) :
    ∀ (cats : List (String × List String)) (n0 : String) (s0 : ℚ),
      (∃ p ∈ cats, s0 < weightedScore w p) →
      ∃ c, cats.find?
          (fun p => weightedScore w p == maxWeighted w s0 cats) = some c
        ∧ selectPrimaryGo w (n0, s0) cats = (c.1, weightedScore w c) := by
  intro cats
  induction cats with
  | nil =>
    intro n0 s0 h
    obtain ⟨p, hp, _⟩ := h
    cases hp
  | cons c rest ih =>
    intro n0 s0 hex
    by_cases h0 : s0 < weightedScore w c
    · have hmax0 : max s0 (weightedScore w c) = weightedScore w c :=
        max_eq_right (le_of_lt h0)
      by_cases h1 : ∃ p ∈ rest, weightedScore w c < weightedScore w p
      · obtain ⟨d, hfind, hgo⟩ := ih c.1 (weightedScore w c) h1
        have hlt : weightedScore w c
            < maxWeighted w (weightedScore w c) rest := by
          obtain ⟨p, hp, hpl⟩ := h1
          exact lt_of_lt_of_le hpl (mem_le_maxWeighted w rest _ p hp)
        refine ⟨d, ?_, ?_⟩
        · rw [maxWeighted_cons, hmax0]
          rw [List.find?_cons_of_neg]
          · exact hfind
          · simp [beq_eq_false_iff_ne.mpr (ne_of_lt hlt)]
        · simp only [selectPrimaryGo, if_pos h0]
          exact hgo
      · have hall : ∀ p ∈ rest, weightedScore w p ≤ weightedScore w c := by
          intro p hp
          by_contra hh
          exact h1 ⟨p, hp, lt_of_not_le hh⟩
        have hM : maxWeighted w s0 (c :: rest) = weightedScore w c := by
          rw [maxWeighted_cons, hmax0]
          exact maxWeighted_of_all_le w rest _ hall
        refine ⟨c, ?_, ?_⟩
        · rw [hM]
          rw [List.find?_cons_of_pos]
          simp
        · simp only [selectPrimaryGo, if_pos h0]
          exact selectPrimaryGo_of_all_le w rest c.1 _ hall
    · have hle : weightedScore w c ≤ s0 := not_lt.mp h0
      have hex' : ∃ p ∈ rest, s0 < weightedScore w p := by
        obtain ⟨p, hp, hlt⟩ := hex
        rcases List.mem_cons.mp hp with h | h
        · subst h
          exact absurd hlt h0
        · exact ⟨p, h, hlt⟩
      obtain ⟨d, hfind, hgo⟩ := ih n0 s0 hex'
      have hlt : weightedScore w c < maxWeighted w s0 rest := by
        obtain ⟨p, hp, hpl⟩ := hex'
        exact lt_of_le_of_lt hle
          (lt_of_lt_of_le hpl (mem_le_maxWeighted w rest s0 p hp))
      refine ⟨d, ?_, ?_⟩
      · rw [maxWeighted_cons, max_eq_left hle]
        rw [List.find?_cons_of_neg]
        · exact hfind
        · simp [beq_eq_false_iff_ne.mpr (ne_of_lt hlt)]
      · simp only [selectPrimaryGo, if_neg h0]
        exact hgo

/-- Claim C5, amended.  Whenever some matched category has a positive
weighted score — in particular whenever all configured weights are
positive — `_classify_artifact` classifies, and its primary category is
the first matched category attaining the maximum of
weight times subcategory count.  (The claim as stated fails when every
matched category has weighted score 0 or below: the loop then keeps its
initial accumulator and the primary category is "Unclassified", which is
not a matched category, see `classify_artifact_zero_weight`.) -/
theorem classify_artifact_primary_argmax (scoring : ScoringConfig)
    (fn : String → String → List (String × List String))
    (path text : String) (metadata : List (String × String))
    (hpos : 0 < maxWeighted scoring.category_weights 0 (fn text path)) :
    ∃ c, (fn text path).find?
        (fun p => weightedScore scoring.category_weights p
          == maxWeighted scoring.category_weights 0 (fn text path))
        = some c
      ∧ ∃ r, _classify_artifact scoring fn path text metadata = some r
        ∧ r.primary_category = c.1 := by
  have hex := exists_lt_of_lt_maxWeighted scoring.category_weights
    (fn text path) 0 hpos
  obtain ⟨c, hfind, hgo⟩ := selectPrimaryGo_argmax scoring.category_weights
    (fn text path) "Unclassified" 0 hex
  refine ⟨c, hfind, ?_⟩
  have hne : (fn text path).isEmpty = false := by
    obtain ⟨p, hp, _⟩ := hex
    cases hfn : fn text path with
    | nil => rw [hfn] at hp; cases hp
    | cons a l => simp
  refine ⟨⟨fn text path,
      selectPrimary scoring.category_weights (fn text path),
      calculate_score scoring text path (fn text path),
      buildRationale (fn text path)
        (calculate_score scoring text path (fn text path))⟩, ?_, ?_⟩
  · simp only [_classify_artifact, hne, Bool.false_eq_true, if_false]
  · simp only [selectPrimary, hgo]

/-- Witness for C5 at the two-rule scenario: Teaching with weight 2 and
one subcategory hit against Service with weight 1 and three hits — the
primary category is Service. -/
theorem classify_artifact_primary_argmax_witness :
    (∃ c, (fnTeachingService "body" "doc.pdf").find?
        (fun p => weightedScore scoringTS.category_weights p
          == maxWeighted scoringTS.category_weights 0
            (fnTeachingService "body" "doc.pdf"))
        = some c
      ∧ ∃ r, _classify_artifact scoringTS fnTeachingService
            "doc.pdf" "body" [] = some r
        ∧ r.primary_category = c.1)
    ∧ (_classify_artifact scoringTS fnTeachingService "doc.pdf" "body" []).map
        (fun r => r.primary_category) = some "Service" :=
  ⟨classify_artifact_primary_argmax scoringTS fnTeachingService
      "doc.pdf" "body" [] (by decide),
    by decide⟩

/-- Counterexample for C5 as stated: with the matched category X carrying
weight 0, the selection loop never improves on its initial accumulator
and the primary category is "Unclassified", not the matched category
maximizing weight times count. -/
theorem classify_artifact_zero_weight :
    (_classify_artifact scoringZeroWeight fnSingleX "doc.pdf" "body" []).map
        (fun r => r.primary_category) = some "Unclassified"
    ∧ "Unclassified" ∉ (fnSingleX "body" "doc.pdf").map (fun p => p.1) :=
  ⟨by decide, by decide⟩

/-! ## Year filtering (C6) -/

/-- Claim C6.  With the year filter 2022 over three local candidates, the
pass-one year step raises `TypeError` — pipeline.py:244 passes the
keyword argument `years` to `filter_by_year`, whose keyword-only
parameter is named `year` (classifier.py:82) — instead of retaining the
2022 candidate.  With no filter requested, all candidates pass through
unfiltered, and `filter_by_year` itself, invoked as its signature
defines, does retain exactly the 2022 candidate. -/
theorem pass_one_year_filter_kwarg_bug :
    pass_one_year_filter (some [2022]) [loc2021, loc2022, loc2023]
      = .error (.typeError
          "filter_by_year() got an unexpected keyword argument years")
    ∧ pass_one_year_filter none [loc2021, loc2022, loc2023]
      = .ok [loc2021, loc2022, loc2023]
    ∧ filter_by_year
        ["artifact_2021.pdf", "artifact_2022.pdf", "artifact_2023.pdf"]
        (some 2022) yearLookup statYearZero leadingYear
      = ["artifact_2022.pdf"] :=
  ⟨rfl, rfl, by decide⟩

/-! ## Per-document error isolation (C7) -/

/-- Failure outcomes of the pass-two body always carry the error event of
the `except` handler, whose step marker is "Error". -/
theorem processOne_failure_step (ops : Pass2Ops) (config : PipelineConfig)
    (apply_tags : Bool) (a : Artifact) (e : ProgressEvent) (tc td : Bool)
    (h : processOne ops config apply_tags a = .failure e tc td) :
    e.file_progress_step = some "Error" := by
  unfold processOne at h
  cases hl : loadFilePath ops a with
  | error e1 => rw [hl] at h; cases h; rfl
  | ok o =>
    rw [hl] at h
    cases o with
    | none => cases h
    | some fpc =>
      obtain ⟨file_path, tempCreated⟩ := fpc
      dsimp only at h
      cases hm : ops.gather_metadata file_path with
      | error e1 => rw [hm] at h; cases h; rfl
      | ok meta =>
        rw [hm] at h
        dsimp only at h
        cases ht : ops.extract_text file_path with
        | error e1 => rw [ht] at h; cases h; rfl
        | ok txt =>
          rw [ht] at h
          dsimp only at h
          cases hts : tagStep ops config apply_tags a file_path
              (_classify_artifact config.scoring ops.classify_text_fn
                file_path txt meta) with
          | error e1 => rw [hts] at h; cases h; rfl
          | ok ft => rw [hts] at h; cases h

/-- Claim C7, amended.  A document whose processing raises contributes
exactly its error progress event — whose step marker is "Error" — and the
remaining documents are processed as if it were absent; the failed
document is excluded from the enriched output, hence (contrary to the
claim as stated) absent from the report built from that output, see
`pass_two_failed_doc_absent_from_report`. -/
theorem pass_two_error_isolated (ops : Pass2Ops) (config : PipelineConfig)
    (apply_tags : Bool) (a : Artifact) (rest : List Artifact)
    (e : ProgressEvent) (tc td : Bool)
    (h : processOne ops config apply_tags a = .failure e tc td) :
    pass_two_deep_analysis ops config apply_tags (a :: rest)
      = ((pass_two_deep_analysis ops config apply_tags rest).1,
          e :: (pass_two_deep_analysis ops config apply_tags rest).2)
    ∧ e.file_progress_step = some "Error" := by
  constructor
  · simp only [pass_two_deep_analysis, h]
  · exact processOne_failure_step ops config apply_tags a e tc td h

/-- Witness for C7: a failing metadata read on the first of two documents
emits the error event and leaves the second document processed as usual. -/
theorem pass_two_error_isolated_witness :
    pass_two_deep_analysis opsFailMeta cfgPlain true [badDoc, goodDoc]
      = ((pass_two_deep_analysis opsFailMeta cfgPlain true [goodDoc]).1,
          errorEvent badDoc "metadata boom"
            :: (pass_two_deep_analysis opsFailMeta cfgPlain true [goodDoc]).2)
    ∧ (errorEvent badDoc "metadata boom").file_progress_step
        = some "Error" :=
  pass_two_error_isolated opsFailMeta cfgPlain true badDoc [goodDoc]
    (errorEvent badDoc "metadata boom") false false rfl

/-- Counterexample for C7 as stated: the document whose processing raised
is dropped from the enriched list, so the report built from pass-two
output — which is what `run_all` hands to `pass_three_report`
(pipeline.py:493-511) — contains no row for it, even though its error
event was emitted. -/
theorem pass_two_failed_doc_absent_from_report :
    pass_three_rows
        (pass_two_deep_analysis opsFailMeta cfgPlain true [badDoc]).1 = []
    ∧ (pass_two_deep_analysis opsFailMeta cfgPlain true [badDoc]).2
        = [errorEvent badDoc "metadata boom"] :=
  ⟨rfl, rfl⟩

/-! ## Temporary-copy cleanup (C8) -/

/-- Success outcomes delete the temporary copy exactly when one was
created. -/
theorem processOne_success_temp (ops : Pass2Ops) (config : PipelineConfig)
    (apply_tags : Bool) (a a2 : Artifact) (e : ProgressEvent)
    (tc td : Bool)
    (h : processOne ops config apply_tags a = .success a2 e tc td) :
    td = tc := by
  unfold processOne at h
  cases hl : loadFilePath ops a with
  | error e1 => rw [hl] at h; cases h
  | ok o =>
    rw [hl] at h
    cases o with
    | none => cases h
    | some fpc =>
      obtain ⟨file_path, tempCreated⟩ := fpc
      dsimp only at h
      cases hm : ops.gather_metadata file_path with
      | error e1 => rw [hm] at h; cases h
      | ok meta =>
        rw [hm] at h
        dsimp only at h
        cases ht : ops.extract_text file_path with
        | error e1 => rw [ht] at h; cases h
        | ok txt =>
          rw [ht] at h
          dsimp only at h
          cases hts : tagStep ops config apply_tags a file_path
              (_classify_artifact config.scoring ops.classify_text_fn
                file_path txt meta) with
          | error e1 => rw [hts] at h; cases h
          | ok ft => rw [hts] at h; cases h; rfl

/-- Claim C8, amended.  On the success exit path of the pass-two body the
temporary local copy is deleted whenever one was created; on the
exception path no cleanup runs — the `except` handler of
pipeline.py:407-419 contains no unlink — so a temp copy created before
the raising step is leaked, see `pass_two_temp_leaked_on_failure`. -/
theorem pass_two_temp_cleanup (ops : Pass2Ops) (config : PipelineConfig)
    (apply_tags : Bool) (a : Artifact)
    (h : outcomeIsSuccess (processOne ops config apply_tags a) = true) :
    outcomeTempDeleted (processOne ops config apply_tags a)
      = outcomeTempCreated (processOne ops config apply_tags a) := by
  cases hp : processOne ops config apply_tags a with
  | success a2 e tc td =>
    have hd := processOne_success_temp ops config apply_tags a a2 e tc td hp
    simp [outcomeTempDeleted, outcomeTempCreated, hd]
  | skipped => rfl
  | failure e tc td => rw [hp] at h; simp [outcomeIsSuccess] at h

/-- Witness for C8: a remote document fully processed — its downloaded
temp copy is created and then deleted. -/
theorem pass_two_temp_cleanup_witness :
    outcomeTempDeleted (processOne opsTempOk cfgPlain true gdriveDoc)
      = outcomeTempCreated (processOne opsTempOk cfgPlain true gdriveDoc) :=
  pass_two_temp_cleanup opsTempOk cfgPlain true gdriveDoc rfl

/-- Counterexample for C8 as stated: the download succeeds (a temp copy
exists) and the following metadata read raises — the outcome records the
created copy as not deleted, so cleanup is not guaranteed on every exit
path. -/
theorem pass_two_temp_leaked_on_failure :
    outcomeTempCreated (processOne opsTempLeak cfgPlain true gdriveDoc)
      = true
    ∧ outcomeTempDeleted (processOne opsTempLeak cfgPlain true gdriveDoc)
      = false :=
  ⟨rfl, rfl⟩

/-! ## Effort estimation (C9) -/

/-- Claim C9, amended.  `_estimate_hours` returns a value only when the
metadata mapping passed to it — which at the pipeline call site
(pipeline.py:351) is the configuration legacy `metadata` dict, not the
per-document snapshot — carries a non-empty string `author` entry; when
attempted, it returns the parse of the first whitespace token after the
literal marker "HoursSpent:" in the extracted text, and a failed parse
yields `none`, never 0. -/
theorem estimate_hours_spec (a : Artifact)
    (metadata : List (String × PyVal)) :
    (∀ q, _estimate_hours a metadata = some q →
      ∃ s, pyDictGet metadata "author" (PyVal.strList []) = PyVal.str s
        ∧ s ≠ "")
    ∧ (∀ (s : String) (rest tok : List Char) (toks : List (List Char)),
        pyDictGet metadata "author" (PyVal.strList []) = PyVal.str s →
        s ≠ "" →
        afterFirst "HoursSpent:".data (a.text.getD "").data = some rest →
        splitWsChars rest = tok :: toks →
        _estimate_hours a metadata = pyFloat ⟨tok⟩) := by
  constructor
  · intro q h
    cases hv : pyDictGet metadata "author" (PyVal.strList []) with
    | str s =>
      refine ⟨s, rfl, ?_⟩
      intro hs
      rw [hs] at hv
      simp [_estimate_hours, hv] at h
    | strList l =>
      simp [_estimate_hours, hv] at h
  · intro s rest tok toks hv hs hafter hsplit
    have hs' : (s == "") = false := beq_eq_false_iff_ne.mpr hs
    simp [_estimate_hours, hv, hs', hafter, hsplit]

/-- Witness for C9: with a string author entry in the passed mapping and
the marker present, the token after the marker parses to 5 hours. -/
theorem estimate_hours_spec_witness :
    _estimate_hours docHours mdAuthor = some 5 := by
  have h := (estimate_hours_spec docHours mdAuthor).2 "Alexandra"
    " 5 total".data "5".data ["total".data] rfl (by decide) rfl rfl
  rw [h]
  rfl

/-- Counterexample for C9 as stated: pass two enriches a document whose
own metadata snapshot is empty — no author-like field — yet, because the
call site passes the configuration metadata (which does name an author),
the estimate is attempted and returns 5. -/
theorem estimate_hours_ignores_snapshot :
    (outcomeArtifact
        (processOne opsHours cfgAuthor true docNoAuthorSnapshot)).map
        (fun a2 => (a2.metadata, a2.hours_spent))
      = some ([], some 5) := rfl

/-! ## Portfolio destination fallback (C10) -/

/-- Claim C10.  Any primary category outside the five hard-coded names
Teaching, Service, Scholarship, Research and Administration is sent to
the destination "Unclassified", both by `portfolio_destination` itself
and in the report row of an artifact classified under it. -/
theorem portfolio_destination_unlisted (r : EnhancedClassificationResult)
    (a : Artifact)
    (h1 : r.primary_category ≠ "Teaching")
    (h2 : r.primary_category ≠ "Service")
    (h3 : r.primary_category ≠ "Scholarship")
    (h4 : r.primary_category ≠ "Research")
    (h5 : r.primary_category ≠ "Administration")
    (ha : a.classification = some r) :
    r.portfolio_destination = "Unclassified"
    ∧ (rowForArtifact a).destination = "Unclassified" := by
  have e1 : ("Teaching" == r.primary_category) = false :=
    beq_eq_false_iff_ne.mpr (Ne.symm h1)
  have e2 : ("Service" == r.primary_category) = false :=
    beq_eq_false_iff_ne.mpr (Ne.symm h2)
  have e3 : ("Scholarship" == r.primary_category) = false :=
    beq_eq_false_iff_ne.mpr (Ne.symm h3)
  have e4 : ("Research" == r.primary_category) = false :=
    beq_eq_false_iff_ne.mpr (Ne.symm h4)
  have e5 : ("Administration" == r.primary_category) = false :=
    beq_eq_false_iff_ne.mpr (Ne.symm h5)
  have hd : r.portfolio_destination = "Unclassified" := by
    simp [EnhancedClassificationResult.portfolio_destination, pyDictGet,
      category_destinations, List.find?, e1, e2, e3, e4, e5]
  exact ⟨hd, by simp [rowForArtifact, ha, hd]⟩

/-- Witness for C10: the configured category Advising — classified, yet
reported with destination "Unclassified". -/
theorem portfolio_destination_unlisted_witness :
    rAdvising.portfolio_destination = "Unclassified"
    ∧ (rowForArtifact aAdvising).destination = "Unclassified" :=
  portfolio_destination_unlisted rAdvising aAdvising (by decide)
    (by decide) (by decide) (by decide) (by decide) rfl

end Dossierhelper
